import Mathlib

/-!
Verification development for the treeline personal-finance engine.

Shallow embedding of the Rust sources:
- `src/desktop/src-tauri/src/lib.rs` (CSV delimiter detection, header parsing)
- `src/cli/src/commands/update.rs` (version comparator)
- `src/core/src/services/logging.rs` (log event id generation)
- `src/core/src/services/tag.rs` (auto-tag rule application, error sanitization)
- `src/desktop/src-tauri/src/permissions.rs` (plugin SQL permission validator)
- the count-based CSV dedup of the ImportService (modelled from the spec,
  exercised by `src/core/tests/bulk_dedup_tests.rs`)
-/

/-! ## String primitives

Computable models of the Rust string operations the embedded code uses,
written over the character list `String.data` (the sources only apply them to
ASCII data). -/

/-- Models Rust `str::to_lowercase` (ASCII range). -/
def str_to_lower (s : String) : String :=
  String.mk (s.data.map Char.toLower)

/-- Models Rust `str::contains(char)`. -/
def str_contains_char (s : String) (c : Char) : Bool :=
  s.data.contains c

/-- Models Rust `str::split(char)` (over the character list). -/
def split_on_char (s : String) (c : Char) : List String :=
  go s.data "" []
where
  go : List Char → String → List String → List String
  | [], cur, acc => acc ++ [cur]
  | x :: rest, cur, acc =>
    if x = c then go rest "" (acc ++ [cur])
    else go rest (cur.push x) acc

/-- Models Rust `str::trim`: drop whitespace from both ends. -/
def str_trim (s : String) : String :=
  String.mk
    (((s.data.dropWhile Char.isWhitespace).reverse.dropWhile
      Char.isWhitespace).reverse)

/-! ## CSV delimiter detection and header parsing (`lib.rs`) -/

/-- Embeds `detect_csv_delimiter` from `src/desktop/src-tauri/src/lib.rs`:
counts `;`, `,` and tab occurrences in the line and returns `;` when semicolons
strictly dominate both others, tab when tabs strictly dominate both others,
and `,` otherwise.  `line.matches(c).count` is the number of characters equal
to `c`; the returned Rust byte is represented as the corresponding `Char`. -/
def detect_csv_delimiter (line : String) : Char :=
  let semicolons := line.data.count ';'
  let commas := line.data.count ','
  let tabs := line.data.count '\t'
  if semicolons > commas ∧ semicolons > tabs then ';'
  else if tabs > commas ∧ tabs > semicolons then '\t'
  else ','

/-- Models the external `csv` crate reading a single record from one line with
the given delimiter (default quoting: a `"` toggles quoted state; delimiters
inside quotes do not split). The repository's own code only consumes the
resulting field list. -/
def csv_split_record (line : String) (delimiter : Char) : List String :=
  go line.data false "" []
where
  go : List Char → Bool → String → List String → List String
  | [], _, cur, acc => acc ++ [cur]
  | c :: rest, inQuotes, cur, acc =>
    if c = '"' then go rest (!inQuotes) cur acc
    else if c = delimiter ∧ inQuotes = false then go rest inQuotes "" (acc ++ [cur])
    else go rest inQuotes (cur.push c) acc

/-- Models Rust `str::trim_start_matches('#')`: repeatedly removes a leading
`#`, i.e. drops the entire leading run of `#` characters. -/
def trim_start_matches_hash (s : String) : String :=
  String.mk (s.data.dropWhile (fun c => c = '#'))

/-- Embeds `parse_csv_headers` from `src/desktop/src-tauri/src/lib.rs`: read
the first CSV record of the line (the `csv` crate yields no record for empty
input, giving the "Empty header line" error), then map each field through
`trim` followed by `trim_start_matches('#')`. -/
def parse_csv_headers (line : String) (delimiter : Char) : Except String (List String) :=
  if line = "" then .error "Empty header line"
  else .ok ((csv_split_record line delimiter).map
    (fun h => trim_start_matches_hash (str_trim h)))

/-! ## Version comparator (`update.rs`) -/

/-- Models Rust `str::parse::<u32>`: an optional leading `+`, then a nonempty
run of ASCII digits whose value fits in 32 bits. -/
def parse_u32 (s : String) : Option Nat :=
  let t := match s.data with
    | '+' :: rest => rest
    | l => l
  if t ≠ [] ∧ t.all Char.isDigit then
    let v := t.foldl (fun n c => n * 10 + (c.toNat - 48)) 0
    if v < 2 ^ 32 then some v else none
  else none

/-- Embeds `parse_version` from `src/cli/src/commands/update.rs`: split on `.`
and keep the components that parse as `u32`, dropping the rest. -/
def parse_version (v : String) : List Nat :=
  (split_on_char v '.').filterMap parse_u32

/-- Embeds the comparison loop of `is_newer_version`: walk the zipped numeric
components; the first strictly larger `latest` component decides `true`, the
first strictly smaller decides `false`; if all compared parts are equal the
longer version is newer. -/
def compare_version_parts : List Nat → List Nat → Bool
  | [], [] => false
  | [], _ :: _ => true
  | _ :: _, [] => false
  | c :: cs, l :: ls =>
    if l > c then true
    else if l < c then false
    else compare_version_parts cs ls

/-- Embeds `is_newer_version` from `src/cli/src/commands/update.rs`: strip a
leading `v` from either argument (Rust `strip_prefix('v')`), parse both into
numeric components and compare them in order. -/
def is_newer_version (current latest : String) : Bool :=
  let current := match current.data with
    | 'v' :: rest => String.mk rest
    | _ => current
  let latest := match latest.data with
    | 'v' :: rest => String.mk rest
    | _ => latest
  compare_version_parts (parse_version current) (parse_version latest)

/-! ## Log event id generation (`logging.rs`) -/

/-- Embeds `generate_id` from `src/core/src/services/logging.rs`. The wall
clock (milliseconds since epoch, truncated to `u64` by `as u64`) and the value
of the global `ID_COUNTER` at this call are passed explicitly. The id is the
`u64` value `(timestamp << 16) | (counter & 0xFFFF)`, where the shift wraps
modulo `2^64`. -/
def generate_id (timestamp_ms : Nat) (counter : Nat) : Nat :=
  (((timestamp_ms % 2 ^ 64) <<< 16) % 2 ^ 64) ||| (counter % 2 ^ 16)

/-! ## Count-based CSV dedup (ImportService, modelled from the spec) -/

/-- Modelled from the spec: the ImportService's count-based dedup (§4.F).
The ImportService implementation is not under `src/` — only its tests
(`src/core/tests/bulk_dedup_tests.rs`) are — so this follows the spec's words:
per fingerprint `fp` the number of rows to insert is
`max(0, C_file[fp] - C_db[fp])` (natural subtraction). Rows are represented by
their fingerprints. -/
def rows_to_insert (db_rows file_rows : List String) (fp : String) : Nat :=
  file_rows.count fp - db_rows.count fp

/-- Modelled from the spec: a CSV import run (§4.F). For each distinct
fingerprint of the file, insert `rows_to_insert` copies; the rest of the
file's rows are classified as skipped. Returns the database rows after the
import, the number of inserted rows and the number of skipped rows. -/
def import_csv (db_rows file_rows : List String) : List String × Nat × Nat :=
  let inserted := file_rows.dedup.flatMap
    (fun fp => List.replicate (rows_to_insert db_rows file_rows fp) fp)
  (db_rows ++ inserted, inserted.length, file_rows.length - inserted.length)

/-! ## Auto-tag rules and SQL error sanitization (`tag.rs`) -/

/-- Helper: does `pat` occur at the head of `l`? -/
def chars_lead : List Char → List Char → Bool
  | [], _ => true
  | _ :: _, [] => false
  | a :: as, b :: bs => a = b && chars_lead as bs

/-- Models Rust `str::contains(&str)`: contiguous substring test. -/
def chars_contain (l pat : List Char) : Bool :=
  chars_lead pat l ||
    match l with
    | [] => false
    | _ :: rest => chars_contain rest pat

/-- Models Rust `str::contains(&str)`: substring test. -/
def contains_str (s pat : String) : Bool :=
  chars_contain s.data pat.data

/-- Embeds `sanitize_sql_error` from `src/core/src/services/tag.rs`: reduce a
DuckDB error message to one of six fixed category strings, never echoing the
original text. -/
def sanitize_sql_error (error : String) : String :=
  if contains_str error "Parser Error" then "SQL syntax error in rule condition"
  else if contains_str error "Binder Error" then
    "Invalid column or table reference in rule condition"
  else if contains_str error "Invalid Input Error" then
    "Invalid input in rule condition"
  else if contains_str error "Catalog Error" then
    "Unknown function or table in rule condition"
  else if contains_str error "regexp" || contains_str error "regex" then
    "Invalid regex pattern in rule condition"
  else "Rule condition failed to execute"

/-- The six fixed category strings `sanitize_sql_error` can return. -/
def sanitize_categories : List String :=
  ["SQL syntax error in rule condition",
   "Invalid column or table reference in rule condition",
   "Invalid input in rule condition",
   "Unknown function or table in rule condition",
   "Invalid regex pattern in rule condition",
   "Rule condition failed to execute"]

/-- An auto-tag rule (`AutoTagRule` rows fetched by
`get_enabled_auto_tag_rules`): id, display name, SQL WHERE-fragment, tags. -/
structure AutoTagRule where
  rule_id : String
  name : String
  sql_condition : String
  tags : List String
deriving DecidableEq

/-- Embeds `RuleFailure` from `src/core/src/services/tag.rs`. -/
structure RuleFailure where
  rule_id : String
  rule_name : String
  error : String
deriving DecidableEq

/-- Embeds `AutoTagResult` from `src/core/src/services/tag.rs` (the `i64`
counters are represented as `Nat`). -/
structure AutoTagResult where
  rules_evaluated : Nat
  rules_matched : Nat
  transactions_tagged : Nat
  failed_rules : List RuleFailure
deriving DecidableEq

/-- The loop body of `apply_auto_tag_rules`: walk the enabled rules carrying
`rules_matched`, the set of tagged transaction ids (a `HashSet` modelled as a
duplicate-free list) and the accumulated failures. `eval_rule` stands for the
external repository call `bulk_apply_tags_to_matching` for the fixed `tx_ids`:
it yields the modified ids or an error string. -/
def auto_tag_loop (eval_rule : AutoTagRule → Except String (List String)) :
    List AutoTagRule → Nat → List String → List RuleFailure →
    Nat × List String × List RuleFailure
  | [], matched, tagged, failures => (matched, tagged, failures)
  | rule :: rest, matched, tagged, failures =>
    if rule.tags = [] then auto_tag_loop eval_rule rest matched tagged failures
    else
      match eval_rule rule with
      | .ok modified =>
        let matched1 := if modified = [] then matched else matched + 1
        let tagged1 := modified.foldl (fun s id => s.insert id) tagged
        auto_tag_loop eval_rule rest matched1 tagged1 failures
      | .error e =>
        auto_tag_loop eval_rule rest matched tagged
          (failures ++ [⟨rule.rule_id, rule.name, sanitize_sql_error e⟩])

/-- Embeds `apply_auto_tag_rules` from `src/core/src/services/tag.rs`. The
enabled rules (the result of the external `get_enabled_auto_tag_rules`) and
the per-rule repository call are passed explicitly; everything after those
external calls follows the source: empty `tx_ids` or no rules short-circuit
with zeros, otherwise each rule with a nonempty tag set is evaluated, failures
are recorded (sanitized) and evaluation continues; the function always returns
`Ok`. -/
def apply_auto_tag_rules (tx_ids : List String) (rules : List AutoTagRule)
    (eval_rule : AutoTagRule → Except String (List String)) :
    Except String AutoTagResult :=
  if tx_ids = [] then .ok ⟨0, 0, 0, []⟩
  else if rules = [] then .ok ⟨0, 0, 0, []⟩
  else
    let r := auto_tag_loop eval_rule rules 0 [] []
    .ok ⟨rules.length, r.1, r.2.1.length, r.2.2⟩

/-- Specification-side restatement of failure recording: one `RuleFailure`
(with sanitized message) per rule whose tag set is nonempty and whose
condition fails to execute, in rule order. -/
def spec_rule_failures (rules : List AutoTagRule)
    (eval_rule : AutoTagRule → Except String (List String)) : List RuleFailure :=
  rules.filterMap (fun rule =>
    if rule.tags = [] then none
    else
      match eval_rule rule with
      | .ok _ => none
      | .error e => some ⟨rule.rule_id, rule.name, sanitize_sql_error e⟩)

/-! ## Plugin SQL permission validator (`permissions.rs`) -/

/-- Embeds `PluginContext` from `src/desktop/src-tauri/src/permissions.rs`. -/
structure PluginContext where
  plugin_id : String
  plugin_schema : String
  allowed_reads : List String
  allowed_writes : List String
deriving DecidableEq

/-- Embeds `TableRef` from `src/desktop/src-tauri/src/permissions.rs`: a table
name (possibly schema-qualified) with its read/write annotation. -/
structure TableRef where
  name : String
  is_write : Bool
deriving DecidableEq

/-!
The `sqlparser` AST fragment walked by `permissions.rs`. Only the node kinds
the extractor inspects are represented; `with_ctes = []` stands for
`with: None`, a `Join`'s `on_constraint = none` for join operators without an
`On` constraint, and `SelectItem.wildcard` for the projection items the
extractor skips. An `Expr.inSubquery`'s left operand is kept (first field)
because the source pattern `Expr::InSubquery { subquery, .. }` ignores it.
-/
mutual
inductive Expr where
  | ident (name : String)
  | value
  | subquery (q : Query)
  | inSubquery (e : Expr) (q : Query)
  | existsSub (q : Query)
  | binaryOp (left : Expr) (right : Expr)
  | unaryOp (e : Expr)
  | nested (e : Expr)

inductive SelectItem where
  | unnamedExpr (e : Expr)
  | exprWithAlias (e : Expr)
  | wildcard

inductive TableFactor where
  | table (name : List String)
  | derived (sub : Query)
  | tableFunction
  | nestedJoin (twj : TableWithJoins)

inductive Join where
  | mk (relation : TableFactor) (on_constraint : Option Expr)

inductive TableWithJoins where
  | mk (relation : TableFactor) (joins : List Join)

inductive Select where
  | mk (from_clause : List TableWithJoins) (projection : List SelectItem)
       (selection : Option Expr) (having : Option Expr)

inductive SetExpr where
  | selectExpr (s : Select)
  | queryExpr (q : Query)
  | setOperation (left : SetExpr) (right : SetExpr)
  | values

inductive Cte where
  | mk (alias_name : String) (query : Query)

inductive Query where
  | mk (with_ctes : List Cte) (body : SetExpr)
end

/-- Embeds the statement kinds handled by `extract_table_references`. The
`UPDATE` `BeforeSet`/`AfterSet` from-kinds and the `DELETE`
`WithFromKeyword`/`WithoutKeyword` variants are collapsed (the source treats
the two alternatives identically), `INSERT` carries its `TableName` target,
and `CREATE SCHEMA`'s `SchemaName` variants are collapsed to the name. `other`
stands for the statements the source ignores. -/
inductive Statement where
  | query (q : Query)
  | insert (table : List String) (source : Option Query)
  | update (table : TableWithJoins) (from_tables : Option (List TableWithJoins))
           (selection : Option Expr)
  | delete (from_tables : List TableWithJoins) (selection : Option Expr)
  | createTable (name : List String) (as_query : Option Query)
  | drop (names : List (List String))
  | alterTable (name : List String)
  | createIndex (table_name : List String)
  | createSchema (schema_name : List String)
  | other

/-- Embeds `object_name_to_string`: join the (identifier) parts with `.`. -/
def object_name_to_string (name : List String) : String :=
  String.intercalate "." name

/-!
The mutually recursive extraction walk of `permissions.rs`
(`extract_from_query`, `extract_from_with`, `extract_from_set_expr`,
`extract_from_select`, `extract_from_table_with_joins`,
`extract_from_table_factor`, `extract_from_expr`). The `&mut Vec<TableRef>`
accumulator becomes the returned list (in push order); the `HashSet<String>`
of CTE names becomes a duplicate-free list threaded functionally, so the
source's `clone()` calls for locally scoped sets are implicit.
-/
mutual
def extract_from_query (query : Query) (cte_names : List String)
    (is_write : Bool) : List TableRef :=
  match query with
  | .mk with_ctes body =>
    let p := extract_from_with with_ctes cte_names
    p.1 ++ extract_from_set_expr body p.2 is_write

/-- Embeds `extract_from_with`: record each CTE name (lowercased) before
walking that CTE's own query, and return the accumulated names. -/
def extract_from_with (ctes : List Cte) (cte_names : List String) :
    List TableRef × List String :=
  match ctes with
  | [] => ([], cte_names)
  | .mk alias_name q :: rest =>
    let cte_names1 := cte_names.insert (str_to_lower alias_name)
    let refs_cte := extract_from_query q cte_names1 false
    let p := extract_from_with rest cte_names1
    (refs_cte ++ p.1, p.2)

def extract_from_set_expr (set_expr : SetExpr) (cte_names : List String)
    (is_write : Bool) : List TableRef :=
  match set_expr with
  | .selectExpr s => extract_from_select s cte_names is_write
  | .queryExpr q => extract_from_query q cte_names is_write
  | .setOperation l r =>
    extract_from_set_expr l cte_names is_write ++
      extract_from_set_expr r cte_names is_write
  | .values => []

def extract_from_select (s : Select) (cte_names : List String)
    (is_write : Bool) : List TableRef :=
  match s with
  | .mk from_clause projection selection having =>
    extract_from_twj_list from_clause cte_names is_write ++
      extract_from_items projection cte_names is_write ++
      (match selection with
       | some e => extract_from_expr e cte_names is_write
       | none => []) ++
      (match having with
       | some e => extract_from_expr e cte_names is_write
       | none => [])

/-- List traversal of the `for twj in &select.from` loop. -/
def extract_from_twj_list (twjs : List TableWithJoins) (cte_names : List String)
    (is_write : Bool) : List TableRef :=
  match twjs with
  | [] => []
  | twj :: rest =>
    extract_from_table_with_joins twj cte_names is_write ++
      extract_from_twj_list rest cte_names is_write

/-- List traversal of the `for item in &select.projection` loop. -/
def extract_from_items (items : List SelectItem) (cte_names : List String)
    (is_write : Bool) : List TableRef :=
  match items with
  | [] => []
  | .unnamedExpr e :: rest =>
    extract_from_expr e cte_names is_write ++
      extract_from_items rest cte_names is_write
  | .exprWithAlias e :: rest =>
    extract_from_expr e cte_names is_write ++
      extract_from_items rest cte_names is_write
  | .wildcard :: rest => extract_from_items rest cte_names is_write

def extract_from_table_with_joins (twj : TableWithJoins)
    (cte_names : List String) (is_write : Bool) : List TableRef :=
  match twj with
  | .mk relation joins =>
    extract_from_table_factor relation cte_names is_write ++
      extract_from_joins joins cte_names is_write

/-- List traversal of the `for join in &twj.joins` loop: each join's relation,
then any subqueries of its `ON` constraint. -/
def extract_from_joins (joins : List Join) (cte_names : List String)
    (is_write : Bool) : List TableRef :=
  match joins with
  | [] => []
  | .mk relation onc :: rest =>
    extract_from_table_factor relation cte_names is_write ++
      (match onc with
       | some e => extract_from_expr e cte_names is_write
       | none => []) ++
      extract_from_joins rest cte_names is_write

def extract_from_table_factor (factor : TableFactor) (cte_names : List String)
    (is_write : Bool) : List TableRef :=
  match factor with
  | .table name =>
    let table_name := object_name_to_string name
    if cte_names.contains (str_to_lower table_name) then []
    else [⟨table_name, is_write⟩]
  | .derived sub => extract_from_query sub cte_names is_write
  | .tableFunction => []
  | .nestedJoin twj => extract_from_table_with_joins twj cte_names is_write

def extract_from_expr (e : Expr) (cte_names : List String) (is_write : Bool) :
    List TableRef :=
  match e with
  | .subquery q => extract_from_query q cte_names is_write
  | .inSubquery _ q => extract_from_query q cte_names is_write
  | .existsSub q => extract_from_query q cte_names is_write
  | .binaryOp l r =>
    extract_from_expr l cte_names is_write ++
      extract_from_expr r cte_names is_write
  | .unaryOp e1 => extract_from_expr e1 cte_names is_write
  | .nested e1 => extract_from_expr e1 cte_names is_write
  | .ident _ => []
  | .value => []
end

/-- Embeds `extract_table_name_from_table_with_joins`: the direct table name
of a `FROM` item, used for write targets. -/
def extract_table_name_from_table_with_joins (twj : TableWithJoins) :
    Option String :=
  match twj with
  | .mk (.table name) _ => some (object_name_to_string name)
  | _ => none

/-- Embeds `extract_table_references` from `permissions.rs`: per statement
kind, push the write target (if any) and walk the contained queries and
expressions with a fresh CTE set, in source push order. -/
def extract_table_references (stmt : Statement) : List TableRef :=
  match stmt with
  | .query q => extract_from_query q [] false
  | .insert table source =>
    ⟨object_name_to_string table, true⟩ ::
      (match source with
       | some q => extract_from_query q [] false
       | none => [])
  | .update table from_tables selection =>
    (match extract_table_name_from_table_with_joins table with
     | some name => [⟨name, true⟩]
     | none => []) ++
      (match from_tables with
       | some twjs => extract_from_twj_list twjs [] false
       | none => []) ++
      (match selection with
       | some e => extract_from_expr e [] false
       | none => [])
  | .delete from_tables selection =>
    (from_tables.filterMap extract_table_name_from_table_with_joins).map
      (fun name => ⟨name, true⟩) ++
      (match selection with
       | some e => extract_from_expr e [] false
       | none => [])
  | .createTable name as_query =>
    ⟨object_name_to_string name, true⟩ ::
      (match as_query with
       | some q => extract_from_query q [] false
       | none => [])
  | .drop names => names.map (fun n => ⟨object_name_to_string n, true⟩)
  | .alterTable name => [⟨object_name_to_string name, true⟩]
  | .createIndex table_name => [⟨object_name_to_string table_name, true⟩]
  | .createSchema schema_name => [⟨object_name_to_string schema_name, true⟩]
  | .other => []

/-- Models Rust `format!("{:?}", vec)` for a `Vec<String>` of plain names (no
escapes needed): `["a", "b"]`. -/
def rust_debug_vec (xs : List String) : String :=
  "[" ++ String.intercalate ", " (xs.map (fun s => "\"" ++ s ++ "\"")) ++ "]"

/-- Embeds `validate_table_access` from `permissions.rs`: split an optional
schema off the (lowercased) name, always allow the plugin's own schema and a
bare reference to it, then check the wildcard and the explicit allow-list for
the read or write direction, and otherwise fail with the source's message. -/
def validate_table_access (table : String) (is_write : Bool)
    (ctx : PluginContext) : Except String Unit :=
  let parsed : Option String × String :=
    if str_contains_char table '.' then
      match split_on_char table '.' with
      | p0 :: p1 :: _ => (some (str_to_lower p0), str_to_lower p1)
      | _ => (none, str_to_lower table)
    else (none, str_to_lower table)
  let schema := parsed.1
  let table_name := parsed.2
  if schema = some (str_to_lower ctx.plugin_schema) then .ok ()
  else if str_to_lower table = str_to_lower ctx.plugin_schema then .ok ()
  else if is_write then
    if ctx.allowed_writes.any (fun w => w = "*") then .ok ()
    else if ctx.allowed_writes.any (fun w =>
        str_to_lower w = str_to_lower table ∨
        str_to_lower w =
          (match schema with | some s => s | none => "main") ++ "." ++ table_name ∨
        (schema = none ∧ str_to_lower w = table_name)) then .ok ()
    else .error ("Plugin '" ++ ctx.plugin_id ++ "' cannot write to '" ++ table ++
      "'. Declared writes: " ++ rust_debug_vec ctx.allowed_writes)
  else
    if ctx.allowed_reads.any (fun r => r = "*") then .ok ()
    else if ctx.allowed_reads.any (fun r =>
        str_to_lower r = str_to_lower table ∨
        str_to_lower r =
          (match schema with | some s => s | none => "main") ++ "." ++ table_name ∨
        (schema = none ∧ str_to_lower r = table_name)) then .ok ()
    else .error ("Plugin '" ++ ctx.plugin_id ++ "' cannot read from '" ++ table ++
      "'. Declared reads: " ++ rust_debug_vec ctx.allowed_reads)

/-- The inner loop of `validate_query_permissions`: check each extracted
reference in order; the first failure is returned (`?` propagation). -/
def validate_refs (refs : List TableRef) (ctx : PluginContext) :
    Except String Unit :=
  match refs with
  | [] => .ok ()
  | r :: rest =>
    match validate_table_access r.name r.is_write ctx with
    | .ok _ => validate_refs rest ctx
    | .error e => .error e

/-- Embeds `validate_query_permissions` from `permissions.rs`, after SQL
parsing: the external `sqlparser` call is modelled by taking the parsed
statement list directly. Every table reference of every statement is checked
in order; the first failure wins. -/
def validate_query_permissions (statements : List Statement)
    (ctx : PluginContext) : Except String Unit :=
  match statements with
  | [] => .ok ()
  | stmt :: rest =>
    match validate_refs (extract_table_references stmt) ctx with
    | .ok _ => validate_query_permissions rest ctx
    | .error e => .error e

/-! ## Concrete fixtures

Plugin contexts and parsed statements used by the concrete parts of the
theorems. Each statement definition is the `sqlparser` (DuckDB dialect) parse
of the SQL string named in its doc comment, restricted to the embedded AST
fragment. -/

/-- Decidable equality for `Except` results, used to evaluate concrete runs. -/
instance {ε α : Type} [DecidableEq ε] [DecidableEq α] :
    DecidableEq (Except ε α) := fun a b =>
  match a, b with
  | .ok x, .ok y =>
    if h : x = y then isTrue (by rw [h]) else isFalse (by simp [h])
  | .error x, .error y =>
    if h : x = y then isTrue (by rw [h]) else isFalse (by simp [h])
  | .ok _, .error _ => isFalse (by simp)
  | .error _, .ok _ => isFalse (by simp)

/-- The `test_ctx()` plugin context of the `permissions.rs` test suite:
plugin `goals` with reads `accounts` and `sys_balance_snapshots`, no writes. -/
def goals_ctx : PluginContext :=
  ⟨"goals", "plugin_goals", ["accounts", "sys_balance_snapshots"], []⟩

/-- The CTE-shadowing test context of `permissions.rs`
(`test_cte_shadowing_real_table`): no reads, no writes. -/
def shadow_ctx : PluginContext :=
  ⟨"test", "plugin_test", [], []⟩

/-- Parse of `SELECT id FROM <t>`. -/
def select_id_from (t : String) : Select :=
  .mk [.mk (.table [t]) []] [.unnamedExpr (.ident "id")] none none

/-- Parse of `SELECT * FROM <t>`. -/
def select_star_from (t : String) : Select :=
  .mk [.mk (.table [t]) []] [.wildcard] none none

/-- Parse of `SELECT id FROM accounts UNION SELECT id FROM sys_transactions`:
a set operation whose branches read `accounts` and `sys_transactions`. -/
def union_leakage_stmt : Statement :=
  .query (.mk []
    (.setOperation (.selectExpr (select_id_from "accounts"))
      (.selectExpr (select_id_from "sys_transactions"))))

/-- Parse of `WITH accounts AS (SELECT 1) SELECT * FROM accounts`: the CTE
body `SELECT 1` has no table references and the outer `FROM accounts` is a
reference to the CTE name. -/
def cte_shadow_stmt : Statement :=
  .query (.mk
    [.mk "accounts" (.mk [] (.selectExpr (.mk [] [.unnamedExpr .value] none none)))]
    (.selectExpr (select_star_from "accounts")))

/-- Parse of `WITH <t> AS (SELECT * FROM <t>) SELECT * FROM <t>`: a CTE whose
own body references the same name it binds. -/
def self_cte_stmt (t : String) : Statement :=
  .query (.mk
    [.mk t (.mk [] (.selectExpr (select_star_from t)))]
    (.selectExpr (select_star_from t)))

/-- Parse of `INSERT INTO <target> SELECT * FROM <src>`. -/
def insert_select_stmt (target : List String) (src : String) : Statement :=
  .insert target (some (.mk [] (.selectExpr (select_star_from src))))

/-- Parse of the multi-statement string
`SELECT * FROM accounts; SELECT * FROM sys_transactions; SELECT * FROM sys_integrations;`
(the second and third statements are both denied for `goals_ctx`). -/
def multi_stmt_list : List Statement :=
  [.query (.mk [] (.selectExpr (select_star_from "accounts"))),
   .query (.mk [] (.selectExpr (select_star_from "sys_transactions"))),
   .query (.mk [] (.selectExpr (select_star_from "sys_integrations")))]

/-- An enabled auto-tag rule whose SQL condition text happens to be a
substring of one of the fixed sanitized category strings. -/
def c8_rule : AutoTagRule :=
  ⟨"r1", "my rule", "rule condition", ["subscriptions"]⟩

/-- A repository evaluation (`bulk_apply_tags_to_matching`) that fails with a
DuckDB parser error for every rule. -/
def c8_eval : AutoTagRule → Except String (List String) :=
  fun _ => .error "Parser Error: syntax error at or near SELECT"

/-! ## Theorems -/

/-- Helper: after dropping the leading run of `#` characters, the head (if
any) is not `#`. -/
theorem head_dropWhile_hash_ne (l : List Char) :
    (l.dropWhile (fun c => c = '#')).head? ≠ some '#' := by
  induction l with
  | nil => simp
  | cons c l ih =>
    by_cases h : c = '#'
    · simpa [List.dropWhile_cons, h] using ih
    · simp [List.dropWhile_cons, h]

/-- C9: the version comparator strips a leading `v` from either argument and
compares the numeric components in order, so
`is_newer("26.2.301","26.2.302") == true`,
`is_newer("v26.2.301","26.2.301") == false`, and
`is_newer("26.2.301","26.12.1") == true` (the third comparison is numeric,
not textual: `2 < 12`). -/
theorem version_comparator_examples :
    is_newer_version "26.2.301" "26.2.302" = true ∧
    is_newer_version "v26.2.301" "26.2.301" = false ∧
    is_newer_version "26.2.301" "26.12.1" = true :=
  ⟨rfl, rfl, rfl⟩

/-- C6: delimiter detection picks, among `,` `;` and tab, the character whose
occurrence count in the header line is strictly the highest; whenever there is
a tie for the highest count or none of the three occurs, the result is `,`.
Concretely: `"Date;Amount;Description"` gives `;`,
`"Date,Amount,Description"` gives `,`, `"Date\tAmount\tDescription"` gives
tab, and `"a,b;c"` (a tie) gives `,`. -/
theorem csv_delimiter_detection_rule :
    (∀ line : String,
      (detect_csv_delimiter line = ';' ↔
        line.data.count ';' > line.data.count ',' ∧
        line.data.count ';' > line.data.count '\t') ∧
      (detect_csv_delimiter line = '\t' ↔
        line.data.count '\t' > line.data.count ',' ∧
        line.data.count '\t' > line.data.count ';') ∧
      (detect_csv_delimiter line = ',' ↔
        (¬ (line.data.count ';' > line.data.count ',' ∧
            line.data.count ';' > line.data.count '\t') ∧
         ¬ (line.data.count '\t' > line.data.count ',' ∧
            line.data.count '\t' > line.data.count ';')))) ∧
    detect_csv_delimiter "Date;Amount;Description" = ';' ∧
    detect_csv_delimiter "Date,Amount,Description" = ',' ∧
    detect_csv_delimiter "Date\tAmount\tDescription" = '\t' ∧
    detect_csv_delimiter "a,b;c" = ',' := by
  refine ⟨fun line => ?_, rfl, rfl, rfl, rfl⟩
  unfold detect_csv_delimiter
  simp only
  split_ifs with h1 h2 <;> simp_all +decide <;> omega

/-- C7 (counterexample): the claim says a header field `##Date` becomes
`#Date` (a leading `#` stripped once), but `trim_start_matches('#')` removes
the whole leading run of `#`, so parsing the header line `##Date,Amount`
yields `Date`, not `#Date`. -/
theorem parse_csv_headers_double_hash_counterexample :
    parse_csv_headers "##Date,Amount" ',' ≠ .ok ["#Date", "Amount"] ∧
    parse_csv_headers "##Date,Amount" ',' = .ok ["Date", "Amount"] := by
  constructor
  · intro h
    exact absurd (show (["Date", "Amount"] : List String) = ["#Date", "Amount"] by
      injection h) (by decide)
  · rfl

/-- C7 (amended): each parsed header field is produced by trimming surrounding
whitespace and then stripping the entire leading run of `#` characters — so a
field `#Date` becomes `Date` and a field `##Date` also becomes `Date`;
consequently no parsed header field starts with `#`. -/
theorem parse_csv_headers_amended :
    parse_csv_headers "#Date,##Amount" ',' = .ok ["Date", "Amount"] ∧
    parse_csv_headers " #Date , ##Amount " ',' = .ok ["Date", "Amount"] ∧
    ∀ line delimiter fields, parse_csv_headers line delimiter = .ok fields →
      ∀ f ∈ fields, f.data.head? ≠ some '#' := by
  refine ⟨rfl, rfl, fun line delimiter fields h f hf => ?_⟩
  unfold parse_csv_headers at h
  by_cases hline : line = ""
  · simp [hline] at h
  · simp only [hline, if_neg, ite_false] at h
    have hfields : fields =
        (csv_split_record line delimiter).map
          (fun h => trim_start_matches_hash (str_trim h)) := by
      cases h; rfl
    subst hfields
    obtain ⟨x, _, rfl⟩ := List.mem_map.mp hf
    exact head_dropWhile_hash_ne _

/-- C7 (amended) witness at the concrete header line `#Date,##Amount`. -/
theorem parse_csv_headers_amended_witness :
    ("Date" : String).data.head? ≠ some '#' :=
  parse_csv_headers_amended.2.2 "#Date,##Amount" ',' ["Date", "Amount"] rfl
    "Date" (by decide)

/-- Helper: bitwise `or` of a multiple of `2^n` with a value below `2^n` is
addition (the operands occupy disjoint bit ranges). -/
theorem lor_of_disjoint (n a b : Nat) (ha : a % 2 ^ n = 0) (hb : b < 2 ^ n) :
    a ||| b = a + b := by
  obtain ⟨k, rfl⟩ : ∃ k, a = 2 ^ n * k :=
    ⟨a / 2 ^ n, (Nat.mul_div_cancel' (Nat.dvd_of_mod_eq_zero ha)).symm⟩
  refine Nat.eq_of_testBit_eq fun i => ?_
  rw [Nat.testBit_or, Nat.testBit_mul_pow_two_add k hb i, Nat.testBit_mul_pow_two]
  by_cases h : i < n
  · simp [h, Nat.not_le_of_lt h]
  · have hbi : b.testBit i = false :=
      Nat.testBit_lt_two_pow
        (lt_of_lt_of_le hb (Nat.pow_le_pow_right (by norm_num) (Nat.le_of_not_lt h)))
    simp [h, Nat.le_of_not_lt h, hbi]

/-- Helper: for timestamps below `2^48` (reached around the year 10889) the
generated id is exactly `timestamp * 2^16` plus the truncated counter. -/
theorem generate_id_eq (t c : Nat) (ht : t < 2 ^ 48) :
    generate_id t c = t * 2 ^ 16 + c % 2 ^ 16 := by
  unfold generate_id
  have h1 : t % 2 ^ 64 = t := Nat.mod_eq_of_lt (by omega)
  rw [h1, Nat.shiftLeft_eq]
  have h2 : t * 2 ^ 16 % 2 ^ 64 = t * 2 ^ 16 := Nat.mod_eq_of_lt (by omega)
  rw [h2, lor_of_disjoint 16 _ _ (by omega) (by omega)]

/-- C10 (counterexample): successive ids are not always strictly increasing.
The global counter is truncated to 16 bits, so the 65536th and 65537th draws
within one millisecond (counter values 65535 and 65536 at timestamp 5) wrap:
the later id is smaller. -/
theorem generate_id_counter_wrap_counterexample :
    generate_id 5 65536 < generate_id 5 65535 ∧
    ¬ generate_id 5 65535 < generate_id 5 65536 := by decide

/-- C10 (amended): every id equals `(timestamp_ms * 2^16 + c) mod 2^64` for
some within-millisecond counter value `c < 2^16` (upper 48 bits timestamp,
lower 16 bits counter), and two successive draws (counter values `c` and
`c + 1`) at non-decreasing timestamps below `2^48` produce strictly increasing
ids provided the 16-bit counter does not wrap between them (i.e. unless both
draws fall in the same millisecond with `c mod 2^16 = 2^16 - 1`). -/
theorem generate_id_structure_and_monotone :
    (∀ t c, ∃ cc, cc < 2 ^ 16 ∧ generate_id t c = (t * 2 ^ 16 + cc) % 2 ^ 64) ∧
    (∀ t1 t2 c, t1 ≤ t2 → t2 < 2 ^ 48 → (t1 = t2 → c % 2 ^ 16 ≠ 2 ^ 16 - 1) →
      generate_id t1 c < generate_id t2 (c + 1)) := by
  constructor
  · intro t c
    refine ⟨c % 2 ^ 16, by omega, ?_⟩
    unfold generate_id
    rw [Nat.shiftLeft_eq, lor_of_disjoint 16 _ _ (by omega) (by omega)]
    omega
  · intro t1 t2 c h12 h2 hwrap
    rw [generate_id_eq t1 c (by omega), generate_id_eq t2 (c + 1) h2]
    rcases Nat.lt_or_ge t1 t2 with h | h
    · omega
    · have ht : t1 = t2 := by omega
      subst ht
      have := hwrap rfl
      omega

/-- C10 (amended) witness: two draws in the same millisecond without wrap. -/
theorem generate_id_structure_and_monotone_witness :
    generate_id 1000 0 < generate_id 1000 1 :=
  generate_id_structure_and_monotone.2 1000 1000 0 (le_refl 1000)
    (by norm_num) (fun _ => by norm_num)

/-- Helper: counting occurrences in a flatMap of replicates indexed by a
duplicate-free list. -/
theorem count_flatMap_replicate (n : String → Nat) (a : String) :
    ∀ (l : List String), l.Nodup →
      (l.flatMap fun b => List.replicate (n b) b).count a =
        if a ∈ l then n a else 0 := by
  intro l hl
  induction l with
  | nil => simp
  | cons b l ih =>
    rcases List.nodup_cons.mp hl with ⟨hb, hl1⟩
    rw [List.flatMap_cons, List.count_append, ih hl1]
    by_cases hab : a = b
    · subst hab
      simp [List.count_replicate, hb]
    · simp [List.count_replicate, hab, Ne.symm hab]

/-- Helper: the rows inserted by an import carry exactly
`max(0, C_file[fp] − C_db[fp])` copies of each fingerprint. -/
theorem import_csv_inserted_count (db_rows file_rows : List String) (fp : String) :
    (file_rows.dedup.flatMap
      (fun x => List.replicate (rows_to_insert db_rows file_rows x) x)).count fp =
      rows_to_insert db_rows file_rows fp := by
  rw [count_flatMap_replicate _ _ _ file_rows.nodup_dedup]
  by_cases h : fp ∈ file_rows
  · simp [List.mem_dedup, h]
  · have h0 : file_rows.count fp = 0 := List.count_eq_zero.mpr h
    simp [List.mem_dedup, h, rows_to_insert, h0]

/-- Helper: after an import, the database count per fingerprint is the max of
the prior database count and the file count. -/
theorem import_csv_count_max (db_rows file_rows : List String) (fp : String) :
    ((import_csv db_rows file_rows).1).count fp =
      max (db_rows.count fp) (file_rows.count fp) := by
  simp only [import_csv, List.count_append]
  rw [import_csv_inserted_count]
  unfold rows_to_insert
  omega

/-- C1: for each fingerprint `fp` the import inserts exactly
`max(0, C_file[fp] − C_db[fp])` rows carrying `fp` and skips the rest, so the
database count per fingerprint afterwards is `max(C_db_before[fp], C_file[fp])`;
re-importing the same file inserts 0 and skips all rows; and after importing 3
identical rows and deleting 2 of them, re-importing inserts exactly 2 for a
final count of 3 (`test_csv_import_reimport_after_delete`,
`test_csv_import_reimport_no_delete`). -/
theorem csv_import_count_delta_law :
    (∀ db_rows file_rows fp,
      ((import_csv db_rows file_rows).1).count fp =
        max (db_rows.count fp) (file_rows.count fp)) ∧
    (∀ db_rows file_rows fp,
      ((import_csv db_rows file_rows).1).count fp =
        db_rows.count fp + rows_to_insert db_rows file_rows fp) ∧
    (∀ db_rows file_rows,
      (import_csv (import_csv db_rows file_rows).1 file_rows).2.1 = 0 ∧
      (import_csv (import_csv db_rows file_rows).1 file_rows).2.2 =
        file_rows.length) ∧
    ((import_csv [] ["f", "f", "f"]).2.1 = 3 ∧
     ((import_csv [] ["f", "f", "f"]).1).count "f" = 3) ∧
    ((import_csv ["f"] ["f", "f", "f"]).2.1 = 2 ∧
     (import_csv ["f"] ["f", "f", "f"]).2.2 = 1 ∧
     ((import_csv ["f"] ["f", "f", "f"]).1).count "f" = 3) := by
  refine ⟨import_csv_count_max, ?_, ?_, by constructor <;> rfl,
    by refine ⟨rfl, rfl, ?_⟩ ; rfl⟩
  · intro db_rows file_rows fp
    simp only [import_csv, List.count_append]
    rw [import_csv_inserted_count]
  · intro db_rows file_rows
    have hz : ∀ fp, rows_to_insert (import_csv db_rows file_rows).1 file_rows fp = 0 := by
      intro fp
      have h := import_csv_count_max db_rows file_rows fp
      unfold rows_to_insert
      omega
    have hlen : ((file_rows.dedup.flatMap fun fp =>
        List.replicate
          (rows_to_insert (import_csv db_rows file_rows).1 file_rows fp) fp)).length = 0 := by
      rw [List.length_flatMap]
      refine List.sum_eq_zero ?_
      intro x hx
      obtain ⟨fp, _, rfl⟩ := List.mem_map.mp hx
      simp [hz fp]
    constructor
    · simpa only [import_csv] using hlen
    · have hlen2 := hlen
      simp only [import_csv] at hlen2 ⊢
      omega

/-- Helper: `sanitize_sql_error` always returns one of the six fixed category
strings. -/
theorem sanitize_sql_error_mem_categories (e : String) :
    sanitize_sql_error e ∈ sanitize_categories := by
  unfold sanitize_sql_error sanitize_categories
  split_ifs <;> simp

/-- Helper: every recorded failure's message is one of the six categories. -/
theorem spec_rule_failures_error_mem (rules : List AutoTagRule)
    (eval_rule : AutoTagRule → Except String (List String)) :
    ∀ f ∈ spec_rule_failures rules eval_rule, f.error ∈ sanitize_categories := by
  intro f hf
  obtain ⟨rule, _, hsome⟩ := List.mem_filterMap.mp hf
  by_cases htags : rule.tags = []
  · simp [spec_rule_failures, htags] at hsome
  · cases hev : eval_rule rule with
    | ok modified => simp [spec_rule_failures, htags, hev] at hsome
    | error e =>
      simp only [spec_rule_failures, htags, hev, if_neg, ite_false,
        Bool.false_eq_true, not_false_eq_true] at hsome
      rw [← Option.some_inj.mp hsome]
      exact sanitize_sql_error_mem_categories e

/-- Helper: the failure list accumulated by the rule loop is the accumulator
followed by one sanitized `RuleFailure` per failing rule, in rule order. -/
theorem auto_tag_loop_failures
    (eval_rule : AutoTagRule → Except String (List String)) :
    ∀ (rules : List AutoTagRule) (m : Nat) (t : List String)
      (fs : List RuleFailure),
      (auto_tag_loop eval_rule rules m t fs).2.2 =
        fs ++ spec_rule_failures rules eval_rule := by
  intro rules
  induction rules with
  | nil => intro m t fs; simp [auto_tag_loop, spec_rule_failures]
  | cons rule rest ih =>
    intro m t fs
    by_cases htags : rule.tags = []
    · simp [auto_tag_loop, htags, spec_rule_failures, ih]
    · rcases hev : eval_rule rule with modified | e
      · simp [auto_tag_loop, htags, hev, spec_rule_failures, ih]
      · simp [auto_tag_loop, htags, hev, spec_rule_failures, ih]

/-- C8 (counterexample): a failing rule's recorded message can contain the
rule's SQL condition text — the sanitized messages are fixed strings, so a
condition that is itself a substring of a category string (here
`rule condition`) occurs in the recorded message. -/
theorem auto_tag_error_contains_condition_counterexample :
    apply_auto_tag_rules ["tx1"] [c8_rule] c8_eval =
      .ok ⟨1, 0, 0, [⟨"r1", "my rule", "SQL syntax error in rule condition"⟩]⟩ ∧
    contains_str "SQL syntax error in rule condition" c8_rule.sql_condition
      = true :=
  ⟨rfl, rfl⟩

/-- C8 (amended): whenever an enabled rule's condition fails to execute,
`apply_auto_tag_rules` still returns `Ok`, records a
`RuleFailure{rule_id, rule_name, error}` for that rule (and nothing else) while
continuing with the remaining rules, and the recorded message is always one of
the six fixed category strings of `sanitize_sql_error` — which are independent
of the rule, so the message never echoes the rule's SQL condition, though it
can coincidentally contain it when the condition is a substring of a fixed
category string. -/
theorem auto_tag_failures_sanitized (tx_ids : List String)
    (rules : List AutoTagRule)
    (eval_rule : AutoTagRule → Except String (List String))
    (h : tx_ids ≠ []) :
    ∃ result, apply_auto_tag_rules tx_ids rules eval_rule = .ok result ∧
      result.failed_rules = spec_rule_failures rules eval_rule ∧
      ∀ f ∈ result.failed_rules, f.error ∈ sanitize_categories := by
  unfold apply_auto_tag_rules
  rw [if_neg h]
  by_cases hr : rules = []
  · subst hr
    exact ⟨⟨0, 0, 0, []⟩, by simp, by simp [spec_rule_failures], by simp⟩
  · rw [if_neg hr]
    have hfail := auto_tag_loop_failures eval_rule rules 0 [] []
    refine ⟨_, rfl, by simpa using hfail, ?_⟩
    intro f hf
    simp only [hfail] at hf
    exact spec_rule_failures_error_mem rules eval_rule f (by simpa using hf)

/-- C8 (amended) witness at a concrete failing rule. -/
theorem auto_tag_failures_sanitized_witness :
    ∃ result, apply_auto_tag_rules ["tx1"] [c8_rule] c8_eval = .ok result ∧
      result.failed_rules = spec_rule_failures [c8_rule] c8_eval ∧
      ∀ f ∈ result.failed_rules, f.error ∈ sanitize_categories :=
  auto_tag_failures_sanitized ["tx1"] [c8_rule] c8_eval (by decide)

/-- Helper: a reference list validates iff every reference validates. -/
theorem validate_refs_ok_iff (refs : List TableRef) (ctx : PluginContext) :
    validate_refs refs ctx = .ok () ↔
      ∀ r ∈ refs, validate_table_access r.name r.is_write ctx = .ok () := by
  induction refs with
  | nil => simp [validate_refs]
  | cons r rest ih =>
    simp only [validate_refs]
    cases h : validate_table_access r.name r.is_write ctx with
    | ok u => cases u; simp [h, ih]
    | error e => simp [h, ih]

/-- Helper: a statement list validates iff every table reference of every
statement validates. -/
theorem validate_query_permissions_ok_iff (statements : List Statement)
    (ctx : PluginContext) :
    validate_query_permissions statements ctx = .ok () ↔
      ∀ stmt ∈ statements, ∀ r ∈ extract_table_references stmt,
        validate_table_access r.name r.is_write ctx = .ok () := by
  induction statements with
  | nil => simp [validate_query_permissions]
  | cons stmt rest ih =>
    simp only [validate_query_permissions]
    cases h : validate_refs (extract_table_references stmt) ctx with
    | ok u =>
      cases u
      simp [ih, List.forall_mem_cons, ← validate_refs_ok_iff, h]
    | error e =>
      simp [List.forall_mem_cons, ← validate_refs_ok_iff, h]

/-- C2: both branches of every set operation contribute their table
references, a statement list validates exactly when every reference of every
statement is allowed (so validation fails as soon as any referenced table is
denied, first failure first), and concretely
`SELECT id FROM accounts UNION SELECT id FROM sys_transactions` is rejected
for the `goals` plugin (reads: `accounts`, `sys_balance_snapshots`) with the
read error for `sys_transactions`; in a multi-statement string the error is
the first denied statement's. -/
theorem validator_union_and_every_statement_checked :
    (∀ (l r : SetExpr) (cte_names : List String) (is_write : Bool),
      extract_from_set_expr (.setOperation l r) cte_names is_write =
        extract_from_set_expr l cte_names is_write ++
          extract_from_set_expr r cte_names is_write) ∧
    (∀ statements ctx,
      validate_query_permissions statements ctx = .ok () ↔
        ∀ stmt ∈ statements, ∀ r ∈ extract_table_references stmt,
          validate_table_access r.name r.is_write ctx = .ok ()) ∧
    validate_query_permissions [union_leakage_stmt] goals_ctx =
      .error "Plugin 'goals' cannot read from 'sys_transactions'. Declared reads: [\"accounts\", \"sys_balance_snapshots\"]" ∧
    validate_query_permissions multi_stmt_list goals_ctx =
      .error "Plugin 'goals' cannot read from 'sys_transactions'. Declared reads: [\"accounts\", \"sys_balance_snapshots\"]" :=
  ⟨fun _ _ _ _ => rfl, validate_query_permissions_ok_iff, rfl, rfl⟩

/-- C3: a name bound as a CTE shadows any real table of the same name: the
statement `WITH accounts AS (SELECT 1) SELECT * FROM accounts` produces no
table references at all, so it validates for every plugin context — in
particular for `shadow_ctx`, whose `allowed_reads` is empty
(`test_cte_shadowing_real_table`). -/
theorem validator_cte_shadowing_allowed :
    extract_table_references cte_shadow_stmt = [] ∧
    (∀ ctx, validate_query_permissions [cte_shadow_stmt] ctx = .ok ()) ∧
    validate_query_permissions [cte_shadow_stmt] shadow_ctx = .ok () :=
  ⟨rfl, fun _ => rfl, rfl⟩

/-- Helper: a one-part object name renders as itself. -/
theorem object_name_to_string_singleton (s : String) :
    object_name_to_string [s] = s := rfl

/-- Helper: a freshly recorded CTE name is found by the shadow-set lookup. -/
theorem contains_insert_nil (s : String) :
    (List.insert s []).contains s = true := by
  simp [List.insert]

/-- C5: for every plugin context and every table name `t` — in particular one
that is neither the plugin's schema nor in `allowed_reads` — the statement
`WITH t AS (SELECT * FROM t) SELECT * FROM t` yields no table references and
passes validation: the CTE's name is inserted into the shadow set before the
CTE's own body is walked, so the reference to the real table `t` inside the
CTE's own definition is never permission-checked. -/
theorem validator_self_cte_body_unchecked (t : String) (ctx : PluginContext) :
    extract_table_references (self_cte_stmt t) = [] ∧
    validate_query_permissions [self_cte_stmt t] ctx = .ok () := by
  have hext : extract_table_references (self_cte_stmt t) = [] := by
    simp only [self_cte_stmt, select_star_from, extract_table_references,
      extract_from_query, extract_from_with, extract_from_set_expr,
      extract_from_select, extract_from_twj_list, extract_from_items,
      extract_from_joins, extract_from_table_with_joins,
      extract_from_table_factor, object_name_to_string_singleton,
      contains_insert_nil, if_true, List.append_nil, List.nil_append]
  refine ⟨hext, ?_⟩
  simp [validate_query_permissions, hext, validate_refs]

/-- Helper: an unqualified table that is not the plugin's schema, with no
wildcard and no matching entry in `allowed_reads`, is denied as a read with
the source's "cannot read from" message. -/
theorem validate_table_access_read_denied (ctx : PluginContext) (src : String)
    (h_dot : str_contains_char src '.' = false)
    (h_schema : str_to_lower src ≠ str_to_lower ctx.plugin_schema)
    (h_wild : "*" ∉ ctx.allowed_reads)
    (h_reads : ∀ r ∈ ctx.allowed_reads,
      str_to_lower r ≠ str_to_lower src ∧
      str_to_lower r ≠ "main." ++ str_to_lower src) :
    validate_table_access src false ctx =
      .error ("Plugin '" ++ ctx.plugin_id ++ "' cannot read from '" ++ src ++
        "'. Declared reads: " ++ rust_debug_vec ctx.allowed_reads) := by
  have hw : ctx.allowed_reads.any (fun r => r = "*") = false := by
    rw [List.any_eq_false]
    intro r hr
    simp only [decide_eq_true_eq]
    exact fun heq => h_wild (heq ▸ hr)
  unfold validate_table_access
  simp only [h_dot, Bool.false_eq_true, if_false, ite_false, reduceCtorEq,
    Option.some.injEq, if_neg h_schema, hw, Bool.false_eq_true]
  simp [h_schema]
  intro r hr
  rcases h_reads r hr with ⟨h1, h2⟩
  exact ⟨h1, h2, h1⟩

/-- C4: for an `INSERT INTO <target> SELECT * FROM <src>` statement, the
INSERT target is annotated as a write and the source query's table as a read;
when the target passes as a write (in particular because it lies in the
plugin's own schema) while the unqualified source is neither the plugin's
schema nor matched by `allowed_reads`, validation fails with the read error
naming the source table — not a write error on the target
(`test_insert_select_denied_source`). -/
theorem validator_insert_denied_source_read_error (ctx : PluginContext)
    (target : List String) (src : String)
    (h_dot : str_contains_char src '.' = false)
    (h_schema : str_to_lower src ≠ str_to_lower ctx.plugin_schema)
    (h_wild : "*" ∉ ctx.allowed_reads)
    (h_reads : ∀ r ∈ ctx.allowed_reads,
      str_to_lower r ≠ str_to_lower src ∧
      str_to_lower r ≠ "main." ++ str_to_lower src)
    (h_target :
      validate_table_access (object_name_to_string target) true ctx = .ok ()) :
    extract_table_references (insert_select_stmt target src) =
      [⟨object_name_to_string target, true⟩, ⟨src, false⟩] ∧
    validate_query_permissions [insert_select_stmt target src] ctx =
      .error ("Plugin '" ++ ctx.plugin_id ++ "' cannot read from '" ++ src ++
        "'. Declared reads: " ++ rust_debug_vec ctx.allowed_reads) := by
  have hext : extract_table_references (insert_select_stmt target src) =
      [⟨object_name_to_string target, true⟩, ⟨src, false⟩] := by
    simp [insert_select_stmt, select_star_from, extract_table_references,
      extract_from_query, extract_from_with, extract_from_set_expr,
      extract_from_select, extract_from_twj_list, extract_from_items,
      extract_from_joins, extract_from_table_with_joins,
      extract_from_table_factor, object_name_to_string_singleton]
  have hread := validate_table_access_read_denied ctx src h_dot h_schema
    h_wild h_reads
  refine ⟨hext, ?_⟩
  simp only [validate_query_permissions, hext, validate_refs, h_target,
    object_name_to_string_singleton, hread]

/-- C4 witness: the `goals` plugin writing `plugin_goals.cached_tx` from the
denied source `sys_transactions` fails with the read error for
`sys_transactions`. -/
theorem validator_insert_denied_source_read_error_witness :
    extract_table_references
        (insert_select_stmt ["plugin_goals", "cached_tx"] "sys_transactions") =
      [⟨"plugin_goals.cached_tx", true⟩, ⟨"sys_transactions", false⟩] ∧
    validate_query_permissions
        [insert_select_stmt ["plugin_goals", "cached_tx"] "sys_transactions"]
        goals_ctx =
      .error ("Plugin '" ++ "goals" ++ "' cannot read from '" ++
        "sys_transactions" ++ "'. Declared reads: " ++
        rust_debug_vec ["accounts", "sys_balance_snapshots"]) :=
  validator_insert_denied_source_read_error goals_ctx
    ["plugin_goals", "cached_tx"] "sys_transactions" rfl (by decide)
    (by decide) (by decide) rfl
